import Mathlib

/-!
Verification of the api_yamdb authentication flow and controller logic.

The development shallowly embeds `src/api_yamdb/reviews/validators.py` and
`src/api_yamdb/api/views.py`: the database is an explicit list of rows,
framework calls with documented semantics (`get_or_create`,
`get_object_or_404`, SQL `AVG`) are written out, and the stateless token
functions (`default_token_generator.make_token` / `check_token`, JWT
signing) are abstract parameters, as the handlers only pass them around.
Definitions whose doc comment starts `Modelled from the spec:` stand for
repository code outside the given sources (the serializers and models).
-/

namespace YaMDb

/-- Roles a user row can carry (`reviews.models.User.role` choices); the
role column of a fresh row defaults to `user`. -/
inductive Role where
  | user
  | moderator
  | admin
deriving DecidableEq, Repr

/-- A row of the user table: the fields the embedded handlers read or
write. -/
structure UserRec where
  username : String
  email : String
  role : Role
  bio : String
  firstName : String
  lastName : String
deriving DecidableEq, Repr

/-- The character class of the username pattern in
`reviews/validators.py`: a word character, dot, at-sign, plus or minus
(Python `\w` modelled on its ASCII fragment: letters, digits and the
underscore). -/
def usernameChar (c : Char) : Bool :=
  c.isAlpha || c.isDigit || c == '_' || c == '.' || c == '@' ||
    c == '+' || c == '-'

/-- Whether `re.search` of the anchored pattern over `value` succeeds: with
a start anchor and an absolute end anchor the search succeeds exactly when
the whole string — viewed as its character list — is a nonempty run of
characters of the class. -/
def usernamePatternMatches (value : String) : Bool :=
  !value.data.isEmpty && value.data.all usernameChar

/-- The two errors `validate_username` can raise. -/
inductive UsernameError where
  | reservedMe
  | badCharacters
deriving DecidableEq, Repr

/-- `validate_username` from `reviews/validators.py`: raises on the literal
"me", then raises when the anchored pattern search fails; any other value
returns without error. -/
def validate_username (value : String) : Except UsernameError Unit :=
  if value = "me" then .error .reservedMe
  else if !usernamePatternMatches value then .error .badCharacters
  else .ok ()

/-- The observable content of a token-endpoint response: HTTP status, the
issued token if any, and the key of the named-field error body otherwise. -/
structure TokenResponse where
  status : Nat
  token : Option String
  errorField : Option String
deriving DecidableEq, Repr

/-- `User.objects.get(username=...)`: `username` is a unique column, so the
lookup yields at most one row. -/
def findByUsername (users : List UserRec) (username : String) :
    Option UserRec :=
  users.find? (fun u => u.username == username)

/-- `APIGetToken.post` from `api/views.py`, after the token serializer has
accepted the two submitted fields. `checkToken` stands for
`default_token_generator.check_token` (a stateless recompute-and-compare)
and `makeToken` for `str(RefreshToken.for_user(user).access_token)`. A
missing user answers 404 with the error keyed by `username`; a failed check
answers 400 keyed by `confirmation_code`; otherwise 200 with the token. -/
def apiGetTokenPost (checkToken : UserRec → String → Bool)
    (makeToken : UserRec → String) (users : List UserRec)
    (username code : String) : TokenResponse :=
  match findByUsername users username with
  | none => ⟨404, none, some "username"⟩
  | some user =>
    if checkToken user code then ⟨200, some (makeToken user), none⟩
    else ⟨400, none, some "confirmation_code"⟩

/-- The token endpoint with its database state threaded explicitly: the
handler body only reads the user table (`get`, `check_token` and JWT
signing perform no writes), so the table comes back unchanged beside the
response. -/
def apiGetTokenPostS (checkToken : UserRec → String → Bool)
    (makeToken : UserRec → String) (users : List UserRec)
    (username code : String) : List UserRec × TokenResponse :=
  (users, apiGetTokenPost checkToken makeToken users username code)

/-- Running the token exchange `n` times in a row, each call starting from
the state the previous call left behind; the list of the responses. -/
def exchangeRepeatedly (checkToken : UserRec → String → Bool)
    (makeToken : UserRec → String) (users : List UserRec)
    (username code : String) : Nat → List TokenResponse
  | 0 => []
  | n + 1 =>
    let out := apiGetTokenPostS checkToken makeToken users username code
    out.2 :: exchangeRepeatedly checkToken makeToken out.1 username code n

/-- An outbound message as `APISignup.send_email` builds one: subject, body
and the recipient address. -/
structure EmailMsg where
  subject : String
  body : String
  toEmail : String
deriving DecidableEq, Repr

/-- A fresh user row as `User.objects.create` inserts it from the signup
serializer's validated data: the submitted username and email, role
defaulting to `user`, the remaining columns blank. -/
def newUser (username email : String) : UserRec :=
  ⟨username, email, .user, "", "", ""⟩

/-- The ways one signup request can end in an error. -/
inductive SignupError where
  | validation (e : UsernameError)
  | integrity
  | emailDelivery
deriving DecidableEq, Repr

/-- `User.objects.get_or_create(username=..., email=...)`: the row matching
both fields when one exists, else a freshly inserted row; an insert that
would break the unique constraint on `username` or on `email` raises
instead and leaves the table unchanged. Yields the table afterwards, the
row, and the created flag. -/
def getOrCreate (users : List UserRec) (username email : String) :
    Except SignupError (List UserRec × UserRec × Bool) :=
  match users.find? (fun u => u.username == username && u.email == email)
    with
  | some u => .ok (users, u, false)
  | none =>
    if users.any (fun u => u.username == username || u.email == email)
    then .error .integrity
    else .ok (users ++ [newUser username email], newUser username email,
      true)

/-- Modelled from the spec: `SignUpSerializer` (in `api/serializers.py`,
not among the given sources) checks the submitted username against the
username pattern and the reserved-word rule, i.e. runs
`validate_username`, before the handler body runs. -/
def signupValidate (username : String) : Except SignupError Unit :=
  match validate_username username with
  | .error e => .error (.validation e)
  | .ok _ => .ok ()

/-- The confirmation message `APISignup.post` builds for a user and a
code: the greeting line, then the code on its own line, addressed to the
row's email. -/
def confirmationEmail (user : UserRec) (code : String) : EmailMsg :=
  ⟨"Код подтверждения",
    "Привет, " ++ user.username ++ ".\nКод подтверждения: " ++ code,
    user.email⟩

/-- What one signup request leaves behind: the user table afterwards, the
messages handed to the mail transport during the call, and the response —
the serializer's echoed data on success, the propagated error otherwise. -/
structure SignupOutcome where
  users : List UserRec
  sent : List EmailMsg
  response : Except SignupError (String × String)
deriving Repr

/-- `APISignup.post` from `api/views.py`. `makeToken` stands for
`default_token_generator.make_token`, a stateless function of the user row
and the current time, both explicit here; `deliver` reports whether
`EmailMessage.send()` succeeds on a message. A validation failure or an
integrity error stops the request before any write; the user row is
fetched-or-created before the send, so a delivery failure propagates as an
error while the write stays committed (no surrounding transaction rolls it
back). -/
def apiSignupPost (makeToken : UserRec → Nat → String)
    (deliver : EmailMsg → Bool) (now : Nat) (users : List UserRec)
    (username email : String) : SignupOutcome :=
  match signupValidate username with
  | .error e => ⟨users, [], .error e⟩
  | .ok _ =>
    match getOrCreate users username email with
    | .error e => ⟨users, [], .error e⟩
    | .ok (users2, user, _) =>
      let code := makeToken user now
      let msg := confirmationEmail user code
      if deliver msg then ⟨users2, [msg], .ok (username, email)⟩
      else ⟨users2, [msg], .error .emailDelivery⟩

/-- A partial PATCH body for the self-service `/users/me` endpoint: each
field the caller may submit, `none` for a field the body omits. -/
structure MePatch where
  username : Option String := none
  email : Option String := none
  firstName : Option String := none
  lastName : Option String := none
  bio : Option String := none
  role : Option Role := none
deriving DecidableEq, Repr

/-- Modelled from the spec: `UserSerializer` (in `api/serializers.py`, not
among the given sources) validates a submitted username with the pattern
and reserved-word rule; a field the body omits is left untouched by a
partial update. -/
def serializerIsValid (p : MePatch) : Except UsernameError Unit :=
  match p.username with
  | some name => validate_username name
  | none => .ok ()

/-- Modelled from the spec: a partial update writes each submitted field of
the body onto the instance and keeps every omitted field. -/
def applyPatch (u : UserRec) (p : MePatch) : UserRec :=
  ⟨p.username.getD u.username, p.email.getD u.email, p.role.getD u.role,
    p.bio.getD u.bio, p.firstName.getD u.firstName,
    p.lastName.getD u.lastName⟩

/-- The PATCH branch of `UserViewSet.get_current_user_info` from
`api/views.py`: validate the body, apply the partial update to the
caller's own row, then `serializer.save(role=request.user.role)` — the
save writes the caller's pre-existing role over whatever role the body
carried. -/
def meEndpointPatch (caller : UserRec) (p : MePatch) :
    Except UsernameError UserRec :=
  match serializerIsValid p with
  | .error e => .error e
  | .ok _ =>
    let updated := applyPatch caller p
    .ok { updated with role := caller.role }

/-- Modelled from the spec: a review row of `reviews.models.Review` (the
models are not among the given sources) — the title it belongs to and its
score, the two columns the rating annotation reads. -/
structure ReviewRec where
  titleId : Nat
  score : Int
deriving DecidableEq, Repr

/-- The multiset `reviews__score` the annotation groups per title: the
scores of the reviews attached to that title. -/
def reviewScores (reviews : List ReviewRec) (titleId : Nat) : List Int :=
  (reviews.filter (fun r => r.titleId == titleId)).map (fun r => r.score)

/-- SQL `AVG` as `Avg('reviews__score')` computes it: `NULL` (`none`) over
an empty group, the exact arithmetic mean of the group otherwise. -/
def sqlAvg (xs : List Int) : Option ℚ :=
  if xs.isEmpty then none
  else some ((xs.map (fun x => (x : ℚ))).sum / xs.length)

/-- The `rating` field `TitleViewSet` annotates a title with
(`Title.objects.annotate(rating=Avg('reviews__score'))`). -/
def titleRating (reviews : List ReviewRec) (titleId : Nat) : Option ℚ :=
  sqlAvg (reviewScores reviews titleId)

/-- The arithmetic mean of a list of scores, written the way the spec words
it: the sum of the scores over their count. -/
def meanScore (xs : List Int) : ℚ :=
  (xs.map (fun x => (x : ℚ))).sum / xs.length

/-- A category row: slug-keyed. -/
structure CategoryRec where
  slug : String
deriving DecidableEq, Repr

/-- A genre row: slug-keyed. -/
structure GenreRec where
  slug : String
deriving DecidableEq, Repr

/-- A title row: the columns the title update touches — its category slug
and its many-to-many genre slug set. -/
structure TitleRec where
  name : String
  categorySlug : String
  genreSlugs : List String
deriving DecidableEq, Repr

/-- `get_object_or_404(Category, slug=self.request.data.get('category'))`:
`data.get` yields `None` for an absent key, and no category row carries a
null slug, so an absent key 404s exactly like an unknown slug. -/
def categoryOr404 (cats : List CategoryRec) (slugField : Option String) :
    Option CategoryRec :=
  slugField.bind (fun s => cats.find? (fun c => c.slug == s))

/-- `TitleViewSet.perform_create` from `api/views.py`, applied to the
instance the serializer is about to save: resolve the payload's category
slug or raise `Http404` (`none`, leaving the title untouched), gather the
genre rows whose slug appears in the payload's `genre` list, and save —
the genre set of the saved row is replaced wholesale by the gathered
slugs (the serializer's save writes both keyword arguments over the
instance). -/
def performCreateTitle (cats : List CategoryRec) (genres : List GenreRec)
    (title : TitleRec) (categoryField : Option String)
    (genreField : List String) : Option TitleRec :=
  match categoryOr404 cats categoryField with
  | none => none
  | some cat =>
    some { title with
      categorySlug := cat.slug,
      genreSlugs :=
        (genres.filter (fun g => genreField.contains g.slug)).map
          (fun g => g.slug) }

/-- `TitleViewSet.perform_update` from `api/views.py`: the body is exactly
`self.perform_create(serializer)` — an update on a PATCH reuses the create
path unchanged. -/
def performUpdateTitle (cats : List CategoryRec) (genres : List GenreRec)
    (title : TitleRec) (categoryField : Option String)
    (genreField : List String) : Option TitleRec :=
  performCreateTitle cats genres title categoryField genreField

/-! ## Theorems -/

/-- The anchored pattern search succeeds exactly on a nonempty string all
of whose characters lie in the class. -/
theorem usernamePatternMatches_iff (value : String) :
    usernamePatternMatches value = true ↔
      value ≠ "" ∧ ∀ c ∈ value.data, usernameChar c = true := by
  unfold usernamePatternMatches
  rw [Bool.and_eq_true, Bool.not_eq_true', List.all_eq_true]
  constructor
  · rintro ⟨h1, h2⟩
    refine ⟨fun he => ?_, h2⟩
    subst he
    exact absurd h1 (by decide)
  · rintro ⟨h1, h2⟩
    refine ⟨?_, h2⟩
    cases h : value.data.isEmpty
    · rfl
    · have hd : value.data = [] := by simpa using h
      exact absurd (String.ext (show value.data = ("" : String).data
        from hd)) h1

/-- C3: `validate_username` raises a validation error exactly on the
literal "me" and on the values the pattern rejects — the empty string and
any value holding a character outside the class `[\w.@+-]`; every other
value returns without error. -/
theorem validate_username_error_iff (value : String) :
    (∃ e, validate_username value = .error e) ↔
      value = "me" ∨ value = "" ∨
        ∃ c ∈ value.data, usernameChar c = false := by
  unfold validate_username
  by_cases hme : value = "me"
  · simp [hme]
  · simp only [hme, if_false, false_or]
    cases hp : usernamePatternMatches value
    · simp only [Bool.not_false, if_true]
      constructor
      · intro _
        have := (usernamePatternMatches_iff value).not.mp (by simp [hp])
        push_neg at this
        by_cases he : value = ""
        · exact Or.inl he
        · rcases this he with ⟨c, hc, hcf⟩
          exact Or.inr ⟨c, hc, by simpa using hcf⟩
      · intro _
        exact ⟨.badCharacters, rfl⟩
    · simp only [Bool.not_true, if_false]
      have := (usernamePatternMatches_iff value).mp hp
      constructor
      · rintro ⟨e, he⟩
        cases he
      · rintro (he | ⟨c, hc, hcf⟩)
        · exact absurd he this.1
        · exact absurd (this.2 c hc) (by simp [hcf])

/-- C1: the token endpoint answers a token exactly when a user with the
submitted username exists and the code verifies against that user; a
missing user answers 404 with the error keyed `username`, an existing user
with a failing code answers 400 keyed `confirmation_code`, and neither
failure carries a token. -/
theorem apiGetTokenPost_spec (checkToken : UserRec → String → Bool)
    (makeToken : UserRec → String) (users : List UserRec)
    (username code : String) :
    ((apiGetTokenPost checkToken makeToken users username code).token.isSome
        ↔ ∃ u, findByUsername users username = some u ∧
            checkToken u code = true)
    ∧ (findByUsername users username = none →
        apiGetTokenPost checkToken makeToken users username code
          = ⟨404, none, some "username"⟩)
    ∧ (∀ u, findByUsername users username = some u →
        checkToken u code = false →
        apiGetTokenPost checkToken makeToken users username code
          = ⟨400, none, some "confirmation_code"⟩) := by
  unfold apiGetTokenPost
  cases hf : findByUsername users username with
  | none => simp [hf]
  | some u =>
    cases hc : checkToken u code
    · simp [hf, hc]
    · simp [hf, hc]

/-- C8: the existence check runs before code verification — when no user
matches the username, the response is the 404 named-field error whatever
the submitted code and whatever the verifier would say (the verifier is
never consulted), and a 400 invalid-code error can only arise for an
existing user whose check failed. -/
theorem apiGetTokenPost_user_checked_first (users : List UserRec)
    (username : String) :
    (findByUsername users username = none →
      ∀ (checkToken : UserRec → String → Bool)
        (makeToken : UserRec → String) (code : String),
        apiGetTokenPost checkToken makeToken users username code
          = ⟨404, none, some "username"⟩)
    ∧ (∀ (checkToken : UserRec → String → Bool)
        (makeToken : UserRec → String) (code : String),
        (apiGetTokenPost checkToken makeToken users username
            code).errorField = some "confirmation_code" →
        ∃ u, findByUsername users username = some u ∧
          checkToken u code = false) := by
  constructor
  · intro hf checkToken makeToken code
    unfold apiGetTokenPost
    rw [hf]
  · intro checkToken makeToken code h
    unfold apiGetTokenPost at h
    cases hf : findByUsername users username with
    | none => rw [hf] at h; simp at h
    | some u =>
      rw [hf] at h
      cases hc : checkToken u code
      · exact ⟨u, rfl, hc⟩
      · simp [hc] at h

/-- C6: a confirmation code is never marked consumed: a successful token
exchange hands the user table back unchanged, the code verifies afterwards
exactly as before, and every repetition of the same exchange — each run
starting from the state its predecessor left — answers 200 with a token. -/
theorem confirmation_code_not_consumed
    (checkToken : UserRec → String → Bool) (makeToken : UserRec → String)
    (users : List UserRec) (username code : String) (u : UserRec)
    (hu : findByUsername users username = some u)
    (hc : checkToken u code = true) :
    (apiGetTokenPostS checkToken makeToken users username code).1 = users
    ∧ checkToken u code = true
    ∧ ∀ n, ∀ r ∈ exchangeRepeatedly checkToken makeToken users username
        code n, r = ⟨200, some (makeToken u), none⟩ := by
  refine ⟨rfl, hc, ?_⟩
  intro n
  induction n with
  | zero => intro r hr; cases hr
  | succ k ih =>
    intro r hr
    rw [exchangeRepeatedly] at hr
    simp only [apiGetTokenPostS, apiGetTokenPost, hu, hc, if_true,
      List.mem_cons] at hr
    rcases hr with h | h
    · exact h
    · exact ih r h

/-- Witness for the stateless-exchange theorem: a one-user store, a
verifier that accepts and a fixed signer. -/
theorem confirmation_code_not_consumed_witness :
    (apiGetTokenPostS (fun _ _ => true) (fun _ => "tok")
        [newUser "alice" "a@b.c"] "alice" "1234").1
      = [newUser "alice" "a@b.c"]
    ∧ true = true
    ∧ ∀ n, ∀ r ∈ exchangeRepeatedly (fun _ _ => true) (fun _ => "tok")
        [newUser "alice" "a@b.c"] "alice" "1234" n,
        r = ⟨200, some "tok", none⟩ :=
  confirmation_code_not_consumed (fun _ _ => true) (fun _ => "tok")
    [newUser "alice" "a@b.c"] "alice" "1234" (newUser "alice" "a@b.c")
    rfl rfl

/-- C2: the self-service PATCH never changes the caller's role — the save
re-applies the pre-existing role even when the body carries one — while
every other submitted field of an accepted body is written onto the
caller's row and every omitted field keeps its old value. -/
theorem meEndpointPatch_preserves_role (caller : UserRec) (p : MePatch)
    (r : UserRec) (h : meEndpointPatch caller p = .ok r) :
    r.role = caller.role
    ∧ r.username = p.username.getD caller.username
    ∧ r.email = p.email.getD caller.email
    ∧ r.bio = p.bio.getD caller.bio
    ∧ r.firstName = p.firstName.getD caller.firstName
    ∧ r.lastName = p.lastName.getD caller.lastName := by
  unfold meEndpointPatch at h
  cases hv : serializerIsValid p with
  | error e => rw [hv] at h; cases h
  | ok _ =>
    rw [hv] at h
    cases h
    exact ⟨rfl, rfl, rfl, rfl, rfl, rfl⟩

/-- Witness for the role-preservation theorem: a body submitting a new bio
together with an admin role leaves the caller's role untouched and writes
the bio. -/
theorem meEndpointPatch_preserves_role_witness :
    (UserRec.mk "alice" "a@b.c" .user "hi" "" "").role
        = (newUser "alice" "a@b.c").role
    ∧ (UserRec.mk "alice" "a@b.c" .user "hi" "" "").username
        = (Option.getD none (newUser "alice" "a@b.c").username)
    ∧ (UserRec.mk "alice" "a@b.c" .user "hi" "" "").email
        = (Option.getD none (newUser "alice" "a@b.c").email)
    ∧ (UserRec.mk "alice" "a@b.c" .user "hi" "" "").bio
        = (Option.getD (some "hi") (newUser "alice" "a@b.c").bio)
    ∧ (UserRec.mk "alice" "a@b.c" .user "hi" "" "").firstName
        = (Option.getD none (newUser "alice" "a@b.c").firstName)
    ∧ (UserRec.mk "alice" "a@b.c" .user "hi" "" "").lastName
        = (Option.getD none (newUser "alice" "a@b.c").lastName) :=
  meEndpointPatch_preserves_role (newUser "alice" "a@b.c")
    ⟨none, none, none, none, some "hi", some .admin⟩
    (UserRec.mk "alice" "a@b.c" .user "hi" "" "") rfl

/-- C5: the annotated rating equals the arithmetic mean of the title's
review scores when at least one review exists, and is `none` when the
title has no reviews. -/
theorem titleRating_spec (reviews : List ReviewRec) (titleId : Nat) :
    (reviewScores reviews titleId ≠ [] →
      titleRating reviews titleId
        = some (meanScore (reviewScores reviews titleId)))
    ∧ (reviewScores reviews titleId = [] →
      titleRating reviews titleId = none) := by
  constructor
  · intro h
    unfold titleRating sqlAvg meanScore
    rw [if_neg (by simpa using h)]
  · intro h
    unfold titleRating sqlAvg
    rw [if_pos (by simpa using h)]

/-- The category lookup of the create path succeeds exactly when the
payload names the slug of a stored category. -/
theorem categoryOr404_isSome_iff (cats : List CategoryRec)
    (slugField : Option String) :
    (categoryOr404 cats slugField).isSome = true
      ↔ ∃ c ∈ cats, slugField = some c.slug := by
  cases slugField with
  | none => simp [categoryOr404]
  | some s =>
    simp only [categoryOr404, Option.some_bind, List.find?_isSome,
      Option.some.injEq, beq_iff_eq]
    constructor
    · rintro ⟨c, hc, rfl⟩
      exact ⟨c, hc, rfl⟩
    · rintro ⟨c, hc, rfl⟩
      exact ⟨c, hc, rfl⟩

/-- C9: a PATCH to a title runs the create path: it succeeds exactly when
the payload carries a category value naming a stored category slug — an
absent or unknown value 404s although the title being updated is at hand —
and the saved row's genre set is exactly the slugs of the stored genres
that appear in the submitted genre list. -/
theorem performUpdateTitle_spec (cats : List CategoryRec)
    (genres : List GenreRec) (title : TitleRec)
    (categoryField : Option String) (genreField : List String) :
    ((∃ r, performUpdateTitle cats genres title categoryField genreField
        = some r) ↔ ∃ c ∈ cats, categoryField = some c.slug)
    ∧ (categoryField = none →
        performUpdateTitle cats genres title categoryField genreField
          = none)
    ∧ (∀ r, performUpdateTitle cats genres title categoryField genreField
        = some r →
        ∀ s, s ∈ r.genreSlugs ↔
          ∃ g ∈ genres, g.slug = s ∧ s ∈ genreField) := by
  have hiff := categoryOr404_isSome_iff cats categoryField
  unfold performUpdateTitle performCreateTitle
  cases hco : categoryOr404 cats categoryField with
  | none =>
    rw [hco] at hiff
    refine ⟨?_, fun _ => rfl, ?_⟩
    · constructor
      · rintro ⟨r, hr⟩; cases hr
      · intro hex
        have := hiff.mpr hex
        simp at this
    · intro r hr; cases hr
  | some cat =>
    rw [hco] at hiff
    refine ⟨?_, ?_, ?_⟩
    · exact ⟨fun _ => hiff.mp rfl, fun _ => ⟨_, rfl⟩⟩
    · intro hnone
      rw [hnone] at hco
      simp [categoryOr404] at hco
    · intro r hr
      cases hr
      intro s
      simp only [List.mem_map, List.mem_filter]
      constructor
      · rintro ⟨g, ⟨hg, hcont⟩, rfl⟩
        exact ⟨g, hg, rfl, by simpa using hcont⟩
      · rintro ⟨g, hg, rfl, hmem⟩
        exact ⟨g, ⟨hg, by simpa using hmem⟩, rfl⟩

/-- What a successful `get_or_create` guarantees: the returned row lies in
the resulting table, the table grew by at most one row, a row flagged as
created is genuinely new (the table is the old one with that row appended
and the row was not there before), and the same lookup run again on the
resulting table finds that very row without creating. -/
theorem getOrCreate_ok (users users2 : List UserRec) (usr : UserRec)
    (flag : Bool) (username email : String)
    (h : getOrCreate users username email = .ok (users2, usr, flag)) :
    usr ∈ users2
    ∧ users2.length ≤ users.length + 1
    ∧ (flag = true → users2 = users ++ [usr] ∧ usr ∉ users)
    ∧ getOrCreate users2 username email = .ok (users2, usr, false) := by
  unfold getOrCreate at h
  cases hf : users.find?
      (fun u => u.username == username && u.email == email) with
  | some w =>
    rw [hf] at h
    simp only [Except.ok.injEq, Prod.mk.injEq] at h
    obtain ⟨rfl, rfl, rfl⟩ := h
    refine ⟨List.mem_of_find?_eq_some hf, Nat.le_succ _, ?_, ?_⟩
    · intro hfl
      exact absurd hfl (by decide)
    · unfold getOrCreate
      rw [hf]
  | none =>
    rw [hf] at h
    cases hany : users.any
        (fun u => u.username == username || u.email == email) with
    | true => rw [hany] at h; cases h
    | false =>
      rw [hany] at h
      simp only [Except.ok.injEq, Prod.mk.injEq] at h
      obtain ⟨rfl, rfl, rfl⟩ := h
      have hpred : ((newUser username email).username == username &&
          (newUser username email).email == email) = true := by
        simp [newUser]
      have hnotmem : newUser username email ∉ users := by
        intro hmem
        exact absurd hpred (List.find?_eq_none.mp hf _ hmem)
      refine ⟨List.mem_append_right _ (List.mem_singleton.mpr rfl), ?_,
        fun _ => ⟨rfl, hnotmem⟩, ?_⟩
      · simp
      · unfold getOrCreate
        rw [List.find?_append, hf]
        simp [newUser]

/-- The outcome of a signup request once validation and `get_or_create`
have gone through: the table `get_or_create` left, exactly the one
confirmation message built with the code issued at this call, and a
response that follows the transport — echoed data on delivery, the
propagated delivery error otherwise. -/
theorem apiSignupPost_shape (makeToken : UserRec → Nat → String)
    (deliver : EmailMsg → Bool) (now : Nat) (users users2 : List UserRec)
    (usr : UserRec) (flag : Bool) (username email : String)
    (hv : validate_username username = .ok ())
    (hgo : getOrCreate users username email = .ok (users2, usr, flag)) :
    (apiSignupPost makeToken deliver now users username email).users
        = users2
    ∧ (apiSignupPost makeToken deliver now users username email).sent
        = [confirmationEmail usr (makeToken usr now)]
    ∧ (deliver (confirmationEmail usr (makeToken usr now)) = true →
        (apiSignupPost makeToken deliver now users username
          email).response = .ok (username, email))
    ∧ (deliver (confirmationEmail usr (makeToken usr now)) = false →
        (apiSignupPost makeToken deliver now users username
          email).response = .error .emailDelivery) := by
  unfold apiSignupPost signupValidate
  rw [hv, hgo]
  cases hd : deliver (confirmationEmail usr (makeToken usr now)) with
  | true => simp [hd]
  | false => simp [hd]

/-- C4: signup is idempotent on the submitted pair: once the first call's
fetch-or-create goes through, the second identical call leaves the table
exactly as the first call left it (it fetches the existing row instead of
erroring), the first call grew the table by at most one row, each call
hands the transport exactly one message carrying the code issued at that
call, and with a working transport both calls answer the echoed pair. -/
theorem apiSignupPost_idempotent (makeToken : UserRec → Nat → String)
    (deliver : EmailMsg → Bool) (t1 t2 : Nat) (users : List UserRec)
    (username email : String)
    (hv : validate_username username = .ok ())
    (hgo : ∃ out, getOrCreate users username email = .ok out) :
    let r1 := apiSignupPost makeToken deliver t1 users username email
    let r2 := apiSignupPost makeToken deliver t2 r1.users username email
    r2.users = r1.users
    ∧ r1.users.length ≤ users.length + 1
    ∧ (∃ usr, r1.sent = [confirmationEmail usr (makeToken usr t1)]
        ∧ r2.sent = [confirmationEmail usr (makeToken usr t2)])
    ∧ ((∀ m, deliver m = true) →
        r1.response = .ok (username, email)
        ∧ r2.response = .ok (username, email)) := by
  obtain ⟨⟨users2, usr, flag⟩, hgo⟩ := hgo
  obtain ⟨_, hlen, _, hgo2⟩ :=
    getOrCreate_ok users users2 usr flag username email hgo
  obtain ⟨hu1, hs1, hok1, _⟩ :=
    apiSignupPost_shape makeToken deliver t1 users users2 usr flag
      username email hv hgo
  intro r1 r2
  have hgo2' : getOrCreate r1.users username email
      = .ok (users2, usr, false) := by rw [show r1.users = users2 from hu1]
                                       exact hgo2
  obtain ⟨hu2, hs2, hok2, _⟩ :=
    apiSignupPost_shape makeToken deliver t2 r1.users users2 usr false
      username email hv hgo2'
  refine ⟨by rw [hu2, hu1], by rw [hu1]; exact hlen,
    ⟨usr, hs1, hs2⟩, fun hall => ⟨hok1 (hall _), hok2 (hall _)⟩⟩

/-- Witness for the signup-idempotence theorem: two identical signups into
an empty store. -/
theorem apiSignupPost_idempotent_witness :
    let r1 := apiSignupPost (fun _ t => toString t) (fun _ => true) 0 []
      "alice" "a@b.c"
    let r2 := apiSignupPost (fun _ t => toString t) (fun _ => true) 1
      r1.users "alice" "a@b.c"
    r2.users = r1.users
    ∧ r1.users.length ≤ ([] : List UserRec).length + 1
    ∧ (∃ usr, r1.sent = [confirmationEmail usr (toString 0)]
        ∧ r2.sent = [confirmationEmail usr (toString 1)])
    ∧ ((∀ m : EmailMsg, (fun _ => true) m = true) →
        r1.response = .ok ("alice", "a@b.c")
        ∧ r2.response = .ok ("alice", "a@b.c")) :=
  apiSignupPost_idempotent (fun _ t => toString t) (fun _ => true) 0 1 []
    "alice" "a@b.c" rfl ⟨([newUser "alice" "a@b.c"],
      newUser "alice" "a@b.c", true), rfl⟩

/-- C7: the body of a successful signup response is exactly the submitted
pair and carries no trace of the generated code: two runs differing only
in the code generator (and the time it reads) answer identical bodies,
and any accepted response equals the submitted username and email. -/
theorem apiSignupPost_response_code_independent
    (mk1 mk2 : UserRec → Nat → String) (t1 t2 : Nat)
    (users : List UserRec) (username email : String) :
    (apiSignupPost mk1 (fun _ => true) t1 users username email).response
      = (apiSignupPost mk2 (fun _ => true) t2 users username
          email).response
    ∧ (∀ (mk : UserRec → Nat → String) (t : Nat) (r : String × String),
        (apiSignupPost mk (fun _ => true) t users username
          email).response = .ok r → r = (username, email)) := by
  constructor
  · unfold apiSignupPost
    cases hv : signupValidate username with
    | error e => rfl
    | ok _ =>
      cases hgo : getOrCreate users username email with
      | error e => rfl
      | ok out => rfl
  · intro mk t r h
    unfold apiSignupPost at h
    cases hv : signupValidate username with
    | error e => rw [hv] at h; cases h
    | ok _ =>
      rw [hv] at h
      cases hgo : getOrCreate users username email with
      | error e => rw [hgo] at h; cases h
      | ok out =>
        rw [hgo] at h
        obtain ⟨users2, usr, flag⟩ := out
        simp only [if_true] at h
        cases h
        rfl

/-- C10: signup is not atomic with respect to email delivery: when the
request created a new user row and the send then fails, the error
propagates as the response while the freshly created row — absent from the
store before the call — stays in the store the call leaves behind. -/
theorem apiSignupPost_not_atomic (makeToken : UserRec → Nat → String)
    (deliver : EmailMsg → Bool) (now : Nat) (users users2 : List UserRec)
    (usr : UserRec) (username email : String)
    (hv : validate_username username = .ok ())
    (hgo : getOrCreate users username email = .ok (users2, usr, true))
    (hd : deliver (confirmationEmail usr (makeToken usr now)) = false) :
    (apiSignupPost makeToken deliver now users username email).response
        = .error .emailDelivery
    ∧ (apiSignupPost makeToken deliver now users username email).users
        = users ++ [usr]
    ∧ usr ∈ (apiSignupPost makeToken deliver now users username
        email).users
    ∧ usr ∉ users := by
  obtain ⟨hmem, _, hnew, _⟩ :=
    getOrCreate_ok users users2 usr true username email hgo
  obtain ⟨happ, hnotmem⟩ := hnew rfl
  obtain ⟨hu, _, _, herr⟩ :=
    apiSignupPost_shape makeToken deliver now users users2 usr true
      username email hv hgo
  exact ⟨herr hd, by rw [hu, happ], by rw [hu]; exact hmem, hnotmem⟩

/-- Witness for the non-atomicity theorem: a signup into an empty store
whose transport always fails keeps the created row. -/
theorem apiSignupPost_not_atomic_witness :
    (apiSignupPost (fun _ _ => "c") (fun _ => false) 0 [] "alice"
        "a@b.c").response = .error .emailDelivery
    ∧ (apiSignupPost (fun _ _ => "c") (fun _ => false) 0 [] "alice"
        "a@b.c").users = [] ++ [newUser "alice" "a@b.c"]
    ∧ newUser "alice" "a@b.c" ∈ (apiSignupPost (fun _ _ => "c")
        (fun _ => false) 0 [] "alice" "a@b.c").users
    ∧ newUser "alice" "a@b.c" ∉ ([] : List UserRec) :=
  apiSignupPost_not_atomic (fun _ _ => "c") (fun _ => false) 0 []
    [newUser "alice" "a@b.c"] (newUser "alice" "a@b.c") "alice" "a@b.c"
    rfl rfl rfl

end YaMDb
